import Mathlib

/-!
Shallow embedding of the core of `dirdr/alphaStral` (a Pokémon-Showdown
battle-agent benchmark) and proofs about its decision-parsing, fallback,
telemetry, memory, extraction, reporting and username-sanitization code.

Sources embedded: `src/bot/schema.py`, `src/bot/agents/_shared.py`,
`src/bot/agents/random.py`, `src/bot/agents/mistral.py`,
`src/bot/extractor.py`, `src/benchmark/types.py`, `src/benchmark/runner.py`.

Python floats are modelled as rationals, Python ints as `Int` (or `Nat`
where the value is an index/length), Python exceptions as an explicit
`Except` error channel, and `random.choice` as indexing by an oracle
natural number modulo the length of the option list.
-/

namespace AlphaStral

/-- A decoded JSON value, the possible results of Python `json.loads`.
Numbers are modelled as integers (no claim depends on fractional JSON
numbers). Objects are association lists; `json.loads` produces dicts,
whose keys are unique, so lookup order is immaterial. -/
inductive Json where
  | null : Json
  | bool : Bool → Json
  | num : Int → Json
  | str : String → Json
  | arr : List Json → Json
  | obj : List (String × Json) → Json
deriving Repr

/-- Python exceptions that the embedded code can raise or swallow. -/
inductive PyExn where
  /-- `AttributeError`: attribute access on an object lacking it
  (e.g. `.get` on a decoded JSON value that is not a dict). -/
  | attributeError : String → PyExn
  /-- Any exception raised by a backend `_call_api` implementation. -/
  | backendError : String → PyExn
deriving Repr, DecidableEq

/-- Python truthiness (`bool(x)`) of a decoded JSON value. -/
def truthy : Json → Bool
  | .null => false
  | .bool b => b
  | .num n => n ≠ 0
  | .str s => s ≠ ""
  | .arr xs => !xs.isEmpty
  | .obj kvs => !kvs.isEmpty

mutual

/-- Python `str(x)` of a decoded JSON value (`repr` is used for elements
nested inside containers, as Python does). Escape subtleties of `repr`
on strings are not reproduced; no claim depends on them. -/
def pyStr : Json → String
  | .null => "None"
  | .bool true => "True"
  | .bool false => "False"
  | .num n => toString n
  | .str s => s
  | .arr xs => "[" ++ String.intercalate ", " (pyReprList xs) ++ "]"
  | .obj kvs => "\x7b" ++ String.intercalate ", " (pyReprPairs kvs) ++ "\x7d"

/-- Python `repr(x)` of a decoded JSON value. -/
def pyRepr : Json → String
  | .str s => "\x27" ++ s ++ "\x27"
  | .null => "None"
  | .bool true => "True"
  | .bool false => "False"
  | .num n => toString n
  | .arr xs => "[" ++ String.intercalate ", " (pyReprList xs) ++ "]"
  | .obj kvs => "\x7b" ++ String.intercalate ", " (pyReprPairs kvs) ++ "\x7d"
termination_by structural j => j

/-- `repr` of each element of a list. -/
def pyReprList : List Json → List String
  | [] => []
  | x :: xs => pyRepr x :: pyReprList xs
termination_by structural l => l

/-- `repr` of each key/value pair of a dict. -/
def pyReprPairs : List (String × Json) → List String
  | [] => []
  | (k, v) :: kvs => ("\x27" ++ k ++ "\x27: " ++ pyRepr v) :: pyReprPairs kvs
termination_by structural l => l

end

/-- Python `==` between a decoded JSON value and a string literal:
true exactly when the value is that very string (no cross-type
equality holds against a `str`). -/
def isStrEq (j : Json) (s : String) : Bool :=
  match j with
  | .str t => t = s
  | _ => false

/-- Python `dict.get(key)` on a decoded JSON object: the stored value, or
`None` when the key is absent. -/
def dictGet (kvs : List (String × Json)) (key : String) : Json :=
  (kvs.lookup key).getD Json.null

/-- Python `dict.get(key, default)` on a decoded JSON object. -/
def dictGetD (kvs : List (String × Json)) (key : String) (dflt : Json) : Json :=
  (kvs.lookup key).getD dflt

/-- Python `str.strip()` (no arguments): remove surrounding whitespace
(ASCII whitespace; the exotic Unicode space characters Python also
strips cannot occur in the strings any claim touches). -/
def pyStripWs (s : String) : String :=
  ⟨((s.data.dropWhile Char.isWhitespace).reverse.dropWhile Char.isWhitespace).reverse⟩

/-! ## `src/bot/schema.py` — the data contract -/

/-- `PokemonState` (schema.py): a revealed benched unit. -/
structure PokemonState where
  species : String
  hp : ℚ
  fainted : Bool
  status : Option String
deriving Repr, DecidableEq

/-- The default boost map of `ActivePokemonState` (all five stats at 0). -/
def defaultBoosts : List (String × Int) :=
  [("atk", 0), ("def", 0), ("spa", 0), ("spd", 0), ("spe", 0)]

/-- `ActivePokemonState` (schema.py). Python inheritance from
`PokemonState` is flattened into one structure. -/
structure ActivePokemonState where
  species : String
  hp : ℚ
  fainted : Bool
  status : Option String
  boosts : List (String × Int) := defaultBoosts
  ability : Option String := none
  item : Option String := none
  tera_type : Option String := none
  terastallized : Bool := false
  moves : List String := []
deriving Repr, DecidableEq

/-- `SideConditions` (schema.py). -/
structure SideConditions where
  sr : Bool := false
  spikes : Int := 0
  toxic_spikes : Int := 0
  reflect : Bool := false
  light_screen : Bool := false
  tailwind : Bool := false
deriving Repr, DecidableEq

/-- `BattleState` (schema.py), the snapshot handed to an agent.
`battle_tag` is the match identifier read by
`LLMBattleAgent.choose_action` (`state.battle_tag`); the schema.py
revision in the repository omits this field even though _shared.py
reads it — the field follows the revision _shared.py (and the spec)
is written against, with `""` playing the role of a falsy value. -/
structure BattleState where
  turn : Int
  active : ActivePokemonState
  opp_active : ActivePokemonState
  team : List PokemonState
  opp_team : List PokemonState
  weather : String
  terrain : String
  field : List String
  my_side : SideConditions
  opp_side : SideConditions
  can_tera : Bool
  moves : List String
  switches : List String
  battle_tag : String := ""
deriving Repr, DecidableEq

/-- `BattleAction = MoveAction | SwitchAction` (schema.py).
`MoveAction(move_id=m)` leaves `tera = False` and `reasoning = ""`. -/
inductive BattleAction where
  | move : (move_id : String) → (tera : Bool) → (reasoning : String) → BattleAction
  | switch : (switch_to : String) → (reasoning : String) → BattleAction
deriving Repr, DecidableEq

/-! ## `src/bot/agents/_shared.py` — fallback and response parsing -/

/-- `_random_fallback` (_shared.py lines 175–181): the candidate list is
`MoveAction(move_id=m)` for each legal move followed by
`SwitchAction(switch_to=s)` for each legal switch; an empty candidate
list yields the fixed `MoveAction(move_id="struggle")`; otherwise
`random.choice` picks an element, modelled by the oracle index `k`
taken modulo the list length. -/
def randomFallback (state : BattleState) (k : Nat) : BattleAction :=
  let options : List BattleAction :=
    state.moves.map (fun m => BattleAction.move m false "") ++
      state.switches.map (fun s => BattleAction.switch s "")
  if h : options = [] then BattleAction.move "struggle" false ""
  else options.get ⟨k % options.length, Nat.mod_lt _ (List.length_pos.mpr h)⟩

/-- `_parse_action` (_shared.py lines 184–241), given the outcome of its
JSON-decoding stage. The decoding stage (strict `json.loads`, then the
regex extraction of the outermost brace-delimited span and a retry) is
abstracted by the `data?` argument: `none` when both attempts raised
`JSONDecodeError`, `some v` when one of them returned the value `v`.
After decoding, the code runs `data.get("action_type")`, which raises
`AttributeError` whenever the decoded value is not a dict (a JSON
array, string, number, boolean or null); no handler catches it there. -/
def parseAction (data? : Option Json) (state : BattleState) (k : Nat) :
    Except PyExn BattleAction :=
  match data? with
  | none => .ok (randomFallback state k)
  | some (.obj kvs) =>
    let action_type := dictGet kvs "action_type"
    if isStrEq action_type "move" then
      let move_id := pyStripWs (pyStr (dictGetD kvs "move_id" (.str "")))
      if move_id ∈ state.moves then
        let tera := truthy (dictGetD kvs "tera" (.bool false)) && state.can_tera
        .ok (.move move_id tera (pyStr (dictGetD kvs "reasoning" (.str ""))))
      else
        .ok (randomFallback state k)
    else if isStrEq action_type "switch" then
      let switch_to := pyStripWs (pyStr (dictGetD kvs "switch_to" (.str "")))
      if switch_to ∈ state.switches then
        .ok (.switch switch_to (pyStr (dictGetD kvs "reasoning" (.str ""))))
      else
        .ok (randomFallback state k)
    else
      .ok (randomFallback state k)
  | some _ => .error (.attributeError "get")

/-! ## `src/bot/agents/random.py` — the stateless random agent -/

/-- `RandomAgent.choose_action` (random.py lines 22–31): the same
candidate construction as `_random_fallback`, with the same fixed
struggle default. -/
def randomAgentChoose (state : BattleState) (k : Nat) : BattleAction :=
  let all_options : List BattleAction :=
    state.moves.map (fun move_id => BattleAction.move move_id false "") ++
      state.switches.map (fun species => BattleAction.switch species "")
  if h : all_options = [] then BattleAction.move "struggle" false ""
  else all_options.get ⟨k % all_options.length, Nat.mod_lt _ (List.length_pos.mpr h)⟩

/-! ## `src/bot/agents/_shared.py` — prompt and message construction -/

/-- `_SYSTEM_PROMPT` (_shared.py lines 68–71). -/
def systemPrompt : String :=
  "You are a competitive Pokémon battle agent. Choose the best action each turn.\n" ++
    "Respond ONLY with a single valid JSON object — no markdown, no explanation outside it.\n"

/-- Python `str` of a list of strings, e.g. `[\x27tackle\x27, \x27surf\x27]`. -/
def pyStrList (xs : List String) : String :=
  "[" ++ String.intercalate ", " (xs.map (fun s => "\x27" ++ s ++ "\x27")) ++ "]"

/-- Python `f"{v:+d}"`: an integer rendered with an explicit sign. -/
def fmtSigned (v : Int) : String :=
  if 0 ≤ v then "+" ++ toString v else toString v

/-- Python `f"{q:.0f}"`: a float rendered with no fractional digits.
Python rounds half to even; the claims never depend on halfway cases,
so ordinary rounding is used. -/
def fmtF0 (q : ℚ) : String := toString (round q)

/-- `_fmt_mon` (_shared.py lines 74–80). -/
def fmtMon (species : String) (hp : ℚ) (status : Option String) (fainted : Bool) : String :=
  if fainted then species ++ " [fainted]"
  else
    let s := species ++ " " ++ fmtF0 (hp * 100) ++ "%HP"
    match status with
    | some st => s ++ " [" ++ st ++ "]"
    | none => s

/-- `_side_str` (_shared.py lines 83–97). -/
def sideStr (s : SideConditions) : String :=
  let parts : List String :=
    (if s.sr then ["stealth_rock"] else []) ++
      (if s.spikes ≠ 0 then ["spikes×" ++ toString s.spikes] else []) ++
      (if s.toxic_spikes ≠ 0 then ["toxic_spikes×" ++ toString s.toxic_spikes] else []) ++
      (if s.reflect then ["reflect"] else []) ++
      (if s.light_screen then ["light_screen"] else []) ++
      (if s.tailwind then ["tailwind"] else [])
  if parts.isEmpty then "none" else String.intercalate ", " parts

/-- The nonzero-boost fragment `", ".join(f"{k}:{v:+d}" ...)` used for
both active units in `_build_prompt`. -/
def boostsStr (boosts : List (String × Int)) : String :=
  String.intercalate ", "
    ((boosts.filter (fun kv => kv.2 ≠ 0)).map (fun kv => kv.1 ++ ":" ++ fmtSigned kv.2))

/-- `_build_prompt` (_shared.py lines 100–172): the natural-language
rendering of the full snapshot followed by the response-format
instruction. -/
def buildPrompt (state : BattleState) : String :=
  let a := state.active
  let activeBoosts := boostsStr a.boosts
  let activeLine :=
    let s := "Your active: " ++ a.species ++ " " ++ fmtF0 (a.hp * 100) ++ "%HP"
    let s := match a.status with | some st => s ++ " [" ++ st ++ "]" | none => s
    let s := if activeBoosts ≠ "" then s ++ " boosts=" ++ activeBoosts else s
    let s := match a.ability with | some ab => s ++ " ability=" ++ ab | none => s
    let s := match a.item with | some it => s ++ " item=" ++ it | none => s
    let s :=
      if a.terastallized then
        s ++ " [terastallized:" ++ (match a.tera_type with | some t => t | none => "None") ++ "]"
      else
        match a.tera_type, state.can_tera with
        | some t, true => s ++ " (can tera:" ++ t ++ ")"
        | _, _ => s
    if !a.moves.isEmpty then s ++ " known_moves=" ++ pyStrList a.moves else s
  let o := state.opp_active
  let oppBoosts := boostsStr o.boosts
  let oppLine :=
    let s := "Opponent active: " ++ o.species ++ " " ++ fmtF0 (o.hp * 100) ++ "%HP"
    let s := match o.status with | some st => s ++ " [" ++ st ++ "]" | none => s
    let s := if oppBoosts ≠ "" then s ++ " boosts=" ++ oppBoosts else s
    let s :=
      if o.terastallized then
        s ++ " [terastallized:" ++ (match o.tera_type with | some t => t | none => "None") ++ "]"
      else s
    if !o.moves.isEmpty then s ++ " known_moves=" ++ pyStrList o.moves else s
  let benchLines : List String :=
    (if !state.team.isEmpty then
      ["Your bench: " ++ String.intercalate ", "
        (state.team.map (fun m => fmtMon m.species m.hp m.status m.fainted))]
    else []) ++
    (if !state.opp_team.isEmpty then
      ["Opponent revealed bench: " ++ String.intercalate ", "
        (state.opp_team.map (fun m => fmtMon m.species m.hp m.status m.fainted))]
    else [])
  let fieldLines : List String :=
    ["Weather: " ++ state.weather ++ "  Terrain: " ++ state.terrain] ++
      (if !state.field.isEmpty then
        ["Field conditions: " ++ String.intercalate ", " state.field]
      else []) ++
      ["Your side: " ++ sideStr state.my_side,
        "Opponent side: " ++ sideStr state.opp_side]
  let actionLines : List String :=
    ["Available moves: " ++ (if !state.moves.isEmpty then pyStrList state.moves else "(none)"),
      "Available switches: " ++
        (if !state.switches.isEmpty then pyStrList state.switches else "(none)")]
  let instruction :=
    "Choose one action. Respond ONLY with a JSON object matching one of these shapes:\n" ++
      "  \x7b\"action_type\": \"move\", \"move_id\": \"<id>\", \"tera\": false, " ++
      "\"reasoning\": \"...\"\x7d\n" ++
      "  \x7b\"action_type\": \"switch\", \"switch_to\": \"<species>\", " ++
      "\"reasoning\": \"...\"\x7d"
  String.intercalate "\n"
    (["Turn " ++ toString state.turn, "", activeLine, oppLine, ""] ++
      benchLines ++ [""] ++ fieldLines ++ [""] ++ actionLines ++ ["", instruction])

/-! ## `src/benchmark/types.py` / `src/bot/agents/_shared.py` — telemetry -/

/-- One telemetry row per decision. The fields follow the construction
in `LLMBattleAgent.choose_action` (_shared.py lines 318–331), which is
the feature-complete revision the spec documents; the dataclass in
`benchmark/types.py` declares only the first seven fields, so that
constructor call raises `TypeError` at runtime — recorded where it
decides a claim. -/
structure TurnStat where
  battle_tag : String
  turn : Int
  agent : String
  decision_ms : ℚ
  used_fallback : Bool
  history_msgs : Int
  action_type : String
  reasoning : String
  move_id : String
  effectiveness : Option ℚ
deriving Repr, DecidableEq

/-- A role-tagged chat message, as the dicts built by `_build_messages`. -/
inductive Role where
  | system : Role
  | user : Role
  | assistant : Role
deriving Repr, DecidableEq

/-- One entry of the message list passed to `_call_api`. -/
structure Msg where
  role : Role
  content : String
deriving Repr, DecidableEq

/-- The mutable attributes of `LLMBattleAgent` (_shared.py lines
251–258) that `choose_action` reads or writes. -/
structure AgentState where
  model_id : String
  name : String
  turn_stats : List TurnStat
  throttle_s : ℚ
  last_call_end : ℚ
  current_tag : Option String
  last_exchange : Option (String × String)
deriving Repr, DecidableEq

/-- `LLMBattleAgent._build_messages` (_shared.py lines 273–282): the
fixed system instruction, the cached previous exchange when present,
and the current prompt. -/
def buildMessages (ag : AgentState) (prompt : String) : List Msg :=
  [⟨.system, systemPrompt⟩] ++
    (match ag.last_exchange with
      | some (prev_prompt, prev_response) =>
        [⟨.user, prev_prompt⟩, ⟨.assistant, prev_response⟩]
      | none => []) ++
    [⟨.user, prompt⟩]

/-- The per-call environment of `LLMBattleAgent.choose_action`: the
oracle values that stand for the outside world during one call.
`apiResult` is the outcome of `self._call_api(messages)`, carrying the
raw response text together with the abstracted outcome of
`_parse_action`s JSON-decoding stage on that text; `fallbackIdx`
stands for the `random.choice` draws; `t0`, `tMid`, `tEnd` are the
three `time.perf_counter()` readings taken after the throttle wait;
`effectiveness` is the `_move_effectiveness` lookup result, a query
against external `poke_env` data. -/
structure CallEnv where
  selfId : String
  apiResult : Except PyExn (String × Option Json)
  fallbackIdx : Nat
  t0 : ℚ
  tMid : ℚ
  tEnd : ℚ
  effectiveness : Option ℚ
deriving Repr

/-- `type(action).__name__.replace("Action", "").lower()`. -/
def actionTypeName : BattleAction → String
  | .move _ _ _ => "move"
  | .switch _ _ => "switch"

/-- `getattr(action, "reasoning", "")`. -/
def actionReasoning : BattleAction → String
  | .move _ _ r => r
  | .switch _ r => r

/-- What one call to `LLMBattleAgent.choose_action` produces: the value
returned (or the exception propagated), the agent attributes after the
call, and the message list that was passed to `_call_api`. -/
structure CallResult where
  result : Except PyExn BattleAction
  agent : AgentState
  sent : List Msg
deriving Repr

/-- `tag = state.battle_tag or str(id(self))` (_shared.py line 285):
the match identifier of the incoming snapshot, with the agent object id
substituted when the snapshot carries a falsy one. -/
def matchTag (state : BattleState) (selfId : String) : String :=
  if state.battle_tag = "" then selfId else state.battle_tag

/-- `LLMBattleAgent.choose_action` (_shared.py lines 284–334).
The throttle wait (`time.sleep`) suspends the caller and is invisible
in the state; the `try` block has a `finally` clause but no `except`
clause, so an exception from `_call_api` — or the `AttributeError`
`_parse_action` raises on non-dict JSON — updates `_last_call_end`
and then propagates to the caller, appending no telemetry row. -/
def chooseAction (ag : AgentState) (state : BattleState) (env : CallEnv) : CallResult :=
  let tag := matchTag state env.selfId
  let ag :=
    if ag.current_tag ≠ some tag then
      { ag with current_tag := some tag, last_exchange := none }
    else ag
  let prompt := buildPrompt state
  let messages := buildMessages ag prompt
  match env.apiResult with
  | .error e => ⟨.error e, { ag with last_call_end := env.tEnd }, messages⟩
  | .ok (raw, data?) =>
    let decision_ms := (env.tMid - env.t0) * 1000
    match parseAction data? state env.fallbackIdx with
    | .error e => ⟨.error e, { ag with last_call_end := env.tEnd }, messages⟩
    | .ok action =>
      let used_fallback := false
      let ag := { ag with last_exchange := some (prompt, raw), last_call_end := env.tEnd }
      let chosen_move_id := match action with | .move m _ _ => m | .switch _ _ => ""
      let effectiveness :=
        match action with | .move _ _ _ => env.effectiveness | .switch _ _ => none
      let row : TurnStat :=
        { battle_tag := tag
          turn := state.turn
          agent := ag.name
          decision_ms := decision_ms
          used_fallback := used_fallback
          history_msgs := (messages.length : Int) - 2
          action_type := actionTypeName action
          reasoning := actionReasoning action
          move_id := chosen_move_id
          effectiveness := effectiveness }
      ⟨.ok action, { ag with turn_stats := ag.turn_stats ++ [row] }, messages⟩

/-! ## `src/bot/agents/mistral.py` — the standalone Mistral agent -/

/-- `MistralAgent.choose_action` (mistral.py lines 32–55): the API call
and `_parse_action` both run inside one `try` whose
`except Exception` handler substitutes `_random_fallback(state)`, so
every backend or parsing exception is swallowed there. -/
def mistralChooseAction (state : BattleState)
    (apiResult : Except PyExn (String × Option Json)) (k : Nat) : BattleAction :=
  match apiResult with
  | .error _ => randomFallback state k
  | .ok (_raw, data?) =>
    match parseAction data? state k with
    | .error _ => randomFallback state k
    | .ok action => action

/-! ## `src/bot/extractor.py` — active-unit extraction -/

/-- The fields of a `poke_env` `Pokemon` object that
`StateExtractor._extract_active` reads. `status` and `tera_type` hold
the enum member name when set. -/
structure PokeEnvMon where
  species : String
  current_hp_fraction : ℚ
  fainted : Bool
  status : Option String
  boosts : List (String × Int)
  ability : Option String
  item : Option String
  tera_type : Option String
  is_terastallized : Bool
  moves : List String
deriving Repr, DecidableEq

/-- `StateExtractor._extract_active` (extractor.py lines 82–96): `None`
becomes the placeholder `ActivePokemonState(species="unknown", hp=0.0,
fainted=True, status=None)` with every remaining field at its dataclass
default; otherwise the fields are copied, lower-casing the enum names. -/
def extractActive : Option PokeEnvMon → ActivePokemonState
  | none => { species := "unknown", hp := 0, fainted := true, status := none }
  | some mon =>
    { species := mon.species
      hp := mon.current_hp_fraction
      fainted := mon.fainted
      status := mon.status.map String.toLower
      boosts := mon.boosts
      ability := mon.ability
      item := mon.item
      tera_type := mon.tera_type.map String.toLower
      terastallized := mon.is_terastallized
      moves := mon.moves }

/-! ## `src/benchmark/types.py` / `src/benchmark/runner.py` — reporting -/

/-- `BattleResult` (types.py lines 8–15). -/
structure BattleResult where
  game_id : String
  p1_agent : String
  p2_agent : String
  winner : String
  n_turns : Int
  timestamp : ℚ
deriving Repr, DecidableEq

/-- `BenchmarkReport` (types.py lines 29–39). -/
structure BenchmarkReport where
  p1_agent : String
  p2_agent : String
  n_games : Int
  p1_wins : Int
  p2_wins : Int
  draws : Int
  results : List BattleResult := []
  total_duration_s : ℚ := 0
  turn_stats : List TurnStat := []
deriving Repr, DecidableEq

/-- `BenchmarkReport.p1_win_rate` (types.py lines 41–45): `0.0` when
`n_games == 0`, else `p1_wins / n_games`. -/
def BenchmarkReport.p1_win_rate (r : BenchmarkReport) : ℚ :=
  if r.n_games = 0 then 0 else (r.p1_wins : ℚ) / (r.n_games : ℚ)

/-- The `BenchmarkReport(...)` construction in `BattleRunner._run_async`
(runner.py lines 115–125): `draws` is `n_battles` minus both win
counts. -/
def mkReport (p1_agent p2_agent : String) (n_battles p1_won p2_won : Int)
    (results : List BattleResult) (elapsed : ℚ) (stats : List TurnStat) :
    BenchmarkReport :=
  { p1_agent := p1_agent
    p2_agent := p2_agent
    n_games := n_battles
    p1_wins := p1_won
    p2_wins := p2_won
    draws := n_battles - p1_won - p2_won
    results := results
    total_duration_s := elapsed
    turn_stats := stats }

/-! ## `src/benchmark/runner.py` — session-identifier sanitization -/

/-- A character the sanitized identifier may keep: the regex class
`[a-zA-Z0-9-]`. -/
def okChar (c : Char) : Bool :=
  ('a' ≤ c && c ≤ 'z') || ('A' ≤ c && c ≤ 'Z') || ('0' ≤ c && c ≤ '9') || c = '-'

/-- One step of `re.sub(r"[^a-zA-Z0-9-]", "-", ...)`. -/
def sanitizeChar (c : Char) : Char := if okChar c then c else '-'

/-- Python `str.lstrip("-")`. -/
def lstripH (cs : List Char) : List Char := cs.dropWhile (· = '-')

/-- Python `str.rstrip("-")`. -/
def rstripH (cs : List Char) : List Char := (cs.reverse.dropWhile (· = '-')).reverse

/-- Python `str.strip("-")`. -/
def stripH (cs : List Char) : List Char := rstripH (lstripH cs)

/-- Python `str.split("-")`: maximal hyphen-free (possibly empty)
pieces; the empty string splits to `[""]`. -/
def splitH : List Char → List (List Char)
  | [] => [[]]
  | c :: cs =>
    let r := splitH cs
    if c = '-' then [] :: r
    else
      match r with
      | [] => [[c]]
      | p :: ps => (c :: p) :: ps

/-- Python `"-".join(...)` over character lists. -/
def joinH : List (List Char) → List Char
  | [] => []
  | [p] => p
  | p :: ps => p ++ '-' :: joinH ps

/-- A lower-case hexadecimal digit, the character class `[0-9a-f]`. -/
def isHexLower (c : Char) : Bool := ('0' ≤ c && c ≤ '9') || ('a' ≤ c && c ≤ 'f')

/-- `re.match(r"^(.*)-([0-9a-f]{6})$", safe)` (runner.py line 33): the
trailing group has fixed width, so the only possible match places the
hyphen at position `length - 7`; greedy `.*` captures everything before
it. Returns the two captured groups. -/
def splitTag (cs : List Char) : Option (List Char × List Char) :=
  if 7 ≤ cs.length then
    match cs.drop (cs.length - 7) with
    | '-' :: t => if t.all isHexLower then some (cs.take (cs.length - 7), t) else none
    | _ => none
  else none

/-- The interior-compression block of `_showdown_username` (runner.py
lines 36–40): when the captured part before the tag exceeds 11
characters, keep the first 3 characters of each nonempty
hyphen-separated segment, and if the rejoined result still exceeds 11
characters cut it to 11 and drop trailing hyphens. -/
def compressPre (pre : List Char) : List Char :=
  if 11 < pre.length then
    let parts := (splitH pre).filter (fun p => !p.isEmpty)
    let joined := joinH (parts.map (fun p => p.take 3))
    if 11 < joined.length then rstripH (joined.take 11) else joined
  else pre

/-- `_showdown_username` (runner.py lines 27–43) over character lists:
sanitize to `[a-zA-Z0-9-]`, return the ≤18-character result stripped of
surrounding hyphens, else keep the trailing 6-hex-digit tag, compress
the part before it, and strip surrounding hyphens. -/
def showdownUsernameChars (name : List Char) : List Char :=
  let safe := name.map sanitizeChar
  if safe.length ≤ 18 then stripH safe
  else
    match splitTag safe with
    | some (pre, tag) => stripH (compressPre pre ++ '-' :: tag)
    | none => stripH (safe.take 18)

/-- `_showdown_username` on Lean strings. -/
def showdownUsername (name : String) : String :=
  ⟨showdownUsernameChars name.data⟩

/-! ## Predicates and concrete inputs used by the theorems -/

/-- An action that neither activates terastallization nor carries any
reasoning text. -/
def benignAction : BattleAction → Prop
  | .move _ tera reasoning => tera = false ∧ reasoning = ""
  | .switch _ reasoning => reasoning = ""

/-- A small mid-battle snapshot with two legal moves and one legal
switch. -/
def exampleState : BattleState :=
  { turn := 3
    active := { species := "pikachu", hp := 1, fainted := false, status := none }
    opp_active := { species := "snorlax", hp := 1/2, fainted := false, status := some "par" }
    team := [{ species := "eevee", hp := 1, fainted := false, status := none }]
    opp_team := []
    weather := "none", terrain := "none", field := []
    my_side := {}, opp_side := {}
    can_tera := false
    moves := ["tackle", "thunderbolt"]
    switches := ["eevee"]
    battle_tag := "battle-gen9-1" }

/-- A freshly constructed LLM agent: no telemetry, no memory, no tag. -/
def exampleAgent : AgentState :=
  { model_id := "mistral-large"
    name := "mistral-large-abc123"
    turn_stats := []
    throttle_s := 2
    last_call_end := 0
    current_tag := none
    last_exchange := none }

/-- A telemetry row from an earlier decision. -/
def examplePrevRow : TurnStat :=
  { battle_tag := "battle-gen9-0"
    turn := 9
    agent := "mistral-large-abc123"
    decision_ms := 5
    used_fallback := false
    history_msgs := 2
    action_type := "move"
    reasoning := ""
    move_id := "tackle"
    effectiveness := none }

/-- The same agent after one earlier decision was recorded. -/
def exampleAgentWithRow : AgentState :=
  { exampleAgent with turn_stats := [examplePrevRow] }

/-- A call whose backend returns prose with no JSON object in it, so
both decoding attempts of `_parse_action` fail. -/
def envUnparseable : CallEnv :=
  { selfId := "4567"
    apiResult := .ok ("I think tackle is the best move here.", none)
    fallbackIdx := 0
    t0 := 10, tMid := 11, tEnd := 12
    effectiveness := some 2 }

/-- A call whose backend raises (a network error). -/
def envRaises : CallEnv :=
  { envUnparseable with apiResult := .error (.backendError "ConnectionError") }

/-- A call whose backend raises (a timeout). -/
def envTimesOut : CallEnv :=
  { envUnparseable with apiResult := .error (.backendError "ReadTimeout") }

/-- A call whose backend returns a well-formed move response naming the
legal move `thunderbolt`. -/
def envLegalMove : CallEnv :=
  { envUnparseable with
      apiResult := .ok ("\x7b...\x7d",
        some (.obj [("action_type", .str "move"), ("move_id", .str "thunderbolt"),
          ("tera", .bool false), ("reasoning", .str "strong hit")])) }

/-! ## Theorems -/

/-- Every candidate the random pick draws from is a default-constructed
move or switch: terastallization off, reasoning empty. -/
theorem benign_options (moves switches : List String) (a : BattleAction)
    (h : a ∈ moves.map (fun m => BattleAction.move m false "") ++
      switches.map (fun s => BattleAction.switch s "")) : benignAction a := by
  rcases List.mem_append.mp h with h | h
  · obtain ⟨m, _, rfl⟩ := List.mem_map.mp h
    exact ⟨rfl, rfl⟩
  · obtain ⟨s, _, rfl⟩ := List.mem_map.mp h
    exact rfl

/-- C1 — the claim fails on the code: `_parse_action` promises never to
raise, but when the response text is valid JSON that is not an object
(here the array `[1, 2]`, accepted verbatim by `json.loads`), the call
`data.get("action_type")` runs against a list and raises
`AttributeError`, for every snapshot and every random draw. -/
theorem parseAction_raises_on_json_array :
    ∀ (st : BattleState) (k : Nat),
      parseAction (some (.arr [.num 1, .num 2])) st k =
        .error (.attributeError "get") := by
  intro st k
  rfl

/-- C2 — the claim fails on the code: a decision whose response text
contains no JSON at all takes the random-fallback path (the returned
action is exactly `_random_fallback`s pick), yet the single TurnStat
row appended for it carries `used_fallback = false`, because
`choose_action` sets that flag to `False` unconditionally after
`_parse_action` returns and `_parse_action` does not report whether it
fell back. -/
theorem chooseAction_fallback_row_not_flagged :
    (chooseAction exampleAgent exampleState envUnparseable).result =
        .ok (randomFallback exampleState envUnparseable.fallbackIdx) ∧
      (chooseAction exampleAgent exampleState envUnparseable).agent.turn_stats.map
          TurnStat.used_fallback = [false] :=
  ⟨rfl, rfl⟩

/-- C3 — the claim fails on the shared LLM agent: its `try` block has a
`finally` clause but no `except` clause, so a backend exception leaves
`choose_action` as that same exception (no fallback action, no
telemetry row) and reaches the orchestrator. The standalone
`MistralAgent.choose_action`, by contrast, does swallow every backend
exception into `_random_fallback`. -/
theorem chooseAction_backend_exception_propagates :
    (chooseAction exampleAgent exampleState envRaises).result =
        .error (.backendError "ConnectionError") ∧
      (chooseAction exampleAgent exampleState envRaises).agent.turn_stats = [] ∧
      ∀ (st : BattleState) (e : PyExn) (k : Nat),
        mistralChooseAction st (.error e) k = randomFallback st k :=
  ⟨rfl, rfl, fun _ _ _ => rfl⟩

/-- C4 — the claim fails on the code: a decision that completes appends
exactly one TurnStat row and leaves the earlier rows unchanged, but a
decision whose backend call raises appends no row at all (the append
sits after the un-guarded `try`, so the exception skips it). -/
theorem chooseAction_row_append_not_guaranteed :
    (chooseAction exampleAgentWithRow exampleState envLegalMove).agent.turn_stats.length =
        exampleAgentWithRow.turn_stats.length + 1 ∧
      (chooseAction exampleAgentWithRow exampleState envLegalMove).agent.turn_stats.take
          exampleAgentWithRow.turn_stats.length = exampleAgentWithRow.turn_stats ∧
      (chooseAction exampleAgentWithRow exampleState envTimesOut).agent.turn_stats =
        exampleAgentWithRow.turn_stats :=
  ⟨rfl, rfl, rfl⟩

/-- C8 — when the battle carries no active unit reference,
`_extract_active` substitutes the placeholder unit: species
`"unknown"`, health fraction `0.0`, `fainted = true`, no status, and
every remaining field at its dataclass default. -/
theorem extractActive_none_placeholder :
    extractActive none =
      { species := "unknown", hp := 0, fainted := true, status := none
        boosts := defaultBoosts, ability := none, item := none, tera_type := none
        terastallized := false, moves := [] } :=
  rfl

/-- C10 — for every snapshot and every random draw, the action produced
by `_random_fallback` and the action produced by
`RandomAgent.choose_action` never activate terastallization and carry
empty reasoning text. -/
theorem random_actions_benign :
    ∀ (st : BattleState) (k : Nat),
      benignAction (randomFallback st k) ∧ benignAction (randomAgentChoose st k) := by
  intro st k
  constructor
  · dsimp only [randomFallback]
    split
    · exact ⟨rfl, rfl⟩
    · exact benign_options _ _ _ (List.get_mem _ _ _)
  · dsimp only [randomAgentChoose]
    split
    · exact ⟨rfl, rfl⟩
    · exact benign_options _ _ _ (List.get_mem _ _ _)

/-- C7 — `p1_win_rate` is `0.0` when `n_games = 0` and `p1_wins /
n_games` otherwise, and the report the runner builds from
`p1_wins = 7`, `p2_wins = 2`, `n_games = 10` has win rate `0.7` and
`draws = 1`. -/
theorem p1_win_rate_no_div_by_zero :
    (∀ r : BenchmarkReport, r.n_games = 0 → r.p1_win_rate = 0) ∧
      (∀ r : BenchmarkReport, r.n_games ≠ 0 →
        r.p1_win_rate = (r.p1_wins : ℚ) / (r.n_games : ℚ)) ∧
      (mkReport "A" "B" 10 7 2 [] 0 []).p1_win_rate = 7 / 10 ∧
      (mkReport "A" "B" 10 7 2 [] 0 []).draws = 1 ∧
      (mkReport "A" "B" 0 0 0 [] 0 []).p1_win_rate = 0 := by
  refine ⟨?_, ?_, ?_, ?_, ?_⟩
  · intro r h
    simp [BenchmarkReport.p1_win_rate, h]
  · intro r h
    simp [BenchmarkReport.p1_win_rate, h]
  · norm_num [mkReport, BenchmarkReport.p1_win_rate]
  · rfl
  · rfl

/-- C7 witness: the general parts of `p1_win_rate_no_div_by_zero`
applied at concrete reports. -/
theorem p1_win_rate_no_div_by_zero_witness :
    (mkReport "A" "B" 0 3 1 [] 0 []).p1_win_rate = 0 ∧
      (mkReport "A" "B" 4 3 1 [] 0 []).p1_win_rate = (3 : ℚ) / 4 :=
  ⟨p1_win_rate_no_div_by_zero.1 _ rfl,
    p1_win_rate_no_div_by_zero.2.1 (mkReport "A" "B" 4 3 1 [] 0 []) (by decide)⟩

/-- C6 — a structurally valid move response naming a legal move id but
requesting terastallization while `can_tera` is false parses to a
`MoveAction` for that move id with the tera flag silently cleared,
not to a failure or a fallback. -/
theorem parseAction_clears_tera_when_unavailable :
    ∀ (kvs : List (String × Json)) (st : BattleState) (k : Nat),
      dictGet kvs "action_type" = .str "move" →
      pyStripWs (pyStr (dictGetD kvs "move_id" (.str ""))) ∈ st.moves →
      truthy (dictGetD kvs "tera" (.bool false)) = true →
      st.can_tera = false →
      parseAction (some (.obj kvs)) st k =
        .ok (.move (pyStripWs (pyStr (dictGetD kvs "move_id" (.str "")))) false
          (pyStr (dictGetD kvs "reasoning" (.str "")))) := by
  intro kvs st k hAt hMem hTera hCan
  dsimp only [parseAction]
  rw [hAt]
  simp [isStrEq, hMem, hTera, hCan]

/-- C6 witness: a concrete snapshot with `can_tera = false` and a
concrete response requesting tera on the legal move `tackle`. -/
theorem parseAction_clears_tera_witness :
    parseAction
        (some (.obj [("action_type", .str "move"), ("move_id", .str "tackle"),
          ("tera", .bool true), ("reasoning", .str "go")]))
        exampleState 0 = .ok (.move "tackle" false "go") :=
  parseAction_clears_tera_when_unavailable
    [("action_type", .str "move"), ("move_id", .str "tackle"),
      ("tera", .bool true), ("reasoning", .str "go")]
    exampleState 0 rfl (by decide) rfl rfl

/-- The message list `choose_action` hands to `_call_api` is
`_build_messages` of the agent after the match-tag check, whatever the
backend and parser later do. -/
theorem chooseAction_sent (ag : AgentState) (st : BattleState) (env : CallEnv) :
    (chooseAction ag st env).sent =
      buildMessages
        (if ag.current_tag ≠ some (matchTag st env.selfId) then
          { ag with current_tag := some (matchTag st env.selfId), last_exchange := none }
        else ag)
        (buildPrompt st) := by
  unfold chooseAction
  cases h : env.apiResult with
  | error e => simp [h]
  | ok rd =>
    obtain ⟨raw, d⟩ := rd
    cases hp : parseAction d st env.fallbackIdx with
    | error e => simp [h, hp]
    | ok a => simp [h, hp]

/-- C5 — the conversational memory is bounded to one exchange and is
match-scoped: every message list sent to the backend is either
`[system, current user prompt]` or
`[system, previous prompt, previous response, current user prompt]`
with the middle pair coming from the cached exchange, and whenever the
incoming snapshot's match identifier differs from the one remembered
from the previous call, the cache is dropped and the two-message form
is sent. -/
theorem chooseAction_memory_bounded_and_reset :
    ∀ (ag : AgentState) (st : BattleState) (env : CallEnv),
      ((chooseAction ag st env).sent =
          [⟨.system, systemPrompt⟩, ⟨.user, buildPrompt st⟩] ∨
        ∃ p r, ag.last_exchange = some (p, r) ∧
          (chooseAction ag st env).sent =
            [⟨.system, systemPrompt⟩, ⟨.user, p⟩, ⟨.assistant, r⟩,
              ⟨.user, buildPrompt st⟩]) ∧
      (ag.current_tag ≠ some (matchTag st env.selfId) →
        (chooseAction ag st env).sent =
          [⟨.system, systemPrompt⟩, ⟨.user, buildPrompt st⟩]) := by
  intro ag st env
  have hsent := chooseAction_sent ag st env
  by_cases htag : ag.current_tag ≠ some (matchTag st env.selfId)
  · rw [if_pos htag] at hsent
    have h2 : (chooseAction ag st env).sent =
        [⟨.system, systemPrompt⟩, ⟨.user, buildPrompt st⟩] := by
      rw [hsent]; simp [buildMessages]
    exact ⟨Or.inl h2, fun _ => h2⟩
  · rw [if_neg htag] at hsent
    refine ⟨?_, fun hc => absurd (not_not.mp htag) hc⟩
    cases hle : ag.last_exchange with
    | none =>
      left
      rw [hsent]
      simp [buildMessages, hle]
    | some pr =>
      obtain ⟨p, r⟩ := pr
      right
      refine ⟨p, r, rfl, ?_⟩
      rw [hsent]
      simp [buildMessages, hle]

/-- C5 witness: a fresh agent (no remembered tag) receives a snapshot
of a new match, so the reset branch applies and exactly the
two-message list is sent. -/
theorem chooseAction_memory_witness :
    (chooseAction exampleAgent exampleState envUnparseable).sent =
      [⟨.system, systemPrompt⟩, ⟨.user, buildPrompt exampleState⟩] :=
  (chooseAction_memory_bounded_and_reset exampleAgent exampleState envUnparseable).2
    (by decide)

/-! ### Lemmas about the username sanitizer -/

/-- Sanitized characters are in the kept class. -/
theorem okChar_sanitizeChar (c : Char) : okChar (sanitizeChar c) = true := by
  unfold sanitizeChar
  split
  · assumption
  · decide

/-- Lower-case hex digits are in the kept class. -/
theorem okChar_of_hex {c : Char} (h : isHexLower c = true) : okChar c = true := by
  unfold isHexLower at h
  unfold okChar
  rcases Bool.or_eq_true_iff.mp h with h | h
  · simp [h]
  · obtain ⟨h1, h2⟩ := Bool.and_eq_true_iff.mp h
    have h1' : 'a' ≤ c := of_decide_eq_true h1
    have h2' : c ≤ 'f' := of_decide_eq_true h2
    have hz : c ≤ 'z' := le_trans h2' (by decide)
    simp [h1', hz]

/-- A lower-case hex digit is never the hyphen. -/
theorem hex_not_dash {c : Char} (h : isHexLower c = true) : ¬ (c = '-') := by
  intro heq
  subst heq
  exact absurd h (by decide)

/-- Right-stripping hyphens never lengthens a list. -/
theorem length_rstripH_le (cs : List Char) : (rstripH cs).length ≤ cs.length := by
  unfold rstripH
  calc ((cs.reverse.dropWhile (· = '-')).reverse).length
      = (cs.reverse.dropWhile (· = '-')).length := List.length_reverse _
    _ ≤ cs.reverse.length := (List.dropWhile_sublist _).length_le
    _ = cs.length := List.length_reverse _

/-- Stripping hyphens from both ends never lengthens a list. -/
theorem length_stripH_le (cs : List Char) : (stripH cs).length ≤ cs.length := by
  unfold stripH lstripH
  exact le_trans (length_rstripH_le _) (List.dropWhile_sublist _).length_le

/-- Characters surviving a right strip come from the original list. -/
theorem mem_rstripH {c : Char} {cs : List Char} (h : c ∈ rstripH cs) : c ∈ cs := by
  unfold rstripH at h
  exact List.mem_reverse.mp ((List.dropWhile_sublist _).subset (List.mem_reverse.mp h))

/-- Characters surviving a two-sided strip come from the original list. -/
theorem mem_stripH {c : Char} {cs : List Char} (h : c ∈ stripH cs) : c ∈ cs := by
  unfold stripH lstripH at h
  exact (List.dropWhile_sublist _).subset (mem_rstripH h)

/-- Characters of the pieces of a hyphen split come from the split list. -/
theorem splitH_mem : ∀ {cs p : List Char} {c : Char}, p ∈ splitH cs → c ∈ p → c ∈ cs := by
  intro cs
  induction cs with
  | nil =>
    intro p c hp hc
    simp only [splitH, List.mem_singleton] at hp
    subst hp
    simp at hc
  | cons d ds ih =>
    intro p c hp hc
    simp only [splitH] at hp
    by_cases hd : d = '-'
    · rw [if_pos hd] at hp
      rcases List.mem_cons.mp hp with rfl | hp
      · simp at hc
      · exact List.mem_cons_of_mem _ (ih hp hc)
    · rw [if_neg hd] at hp
      cases hsp : splitH ds with
      | nil =>
        rw [hsp] at hp
        simp only [List.mem_singleton] at hp
        subst hp
        simp only [List.mem_singleton] at hc
        subst hc
        exact List.mem_cons_self _ _
      | cons q qs =>
        rw [hsp] at hp
        rcases List.mem_cons.mp hp with rfl | hp2
        · rcases List.mem_cons.mp hc with rfl | hc2
          · exact List.mem_cons_self _ _
          · exact List.mem_cons_of_mem _
              (ih (by rw [hsp]; exact List.mem_cons_self _ _) hc2)
        · exact List.mem_cons_of_mem _
            (ih (by rw [hsp]; exact List.mem_cons_of_mem _ hp2) hc)

/-- Characters of a hyphen join are hyphens or come from the pieces. -/
theorem joinH_mem (ps : List (List Char)) (c : Char) (h : c ∈ joinH ps) :
    c = '-' ∨ ∃ p ∈ ps, c ∈ p := by
  revert h
  induction ps with
  | nil =>
    intro h
    simp [joinH] at h
  | cons p ps ih =>
    intro h
    cases ps with
    | nil =>
      right
      exact ⟨p, List.mem_cons_self _ _, by simpa [joinH] using h⟩
    | cons q qs =>
      rw [show joinH (p :: q :: qs) = p ++ '-' :: joinH (q :: qs) from rfl] at h
      rcases List.mem_append.mp h with h | h
      · right
        exact ⟨p, List.mem_cons_self _ _, h⟩
      · rcases List.mem_cons.mp h with rfl | h
        · left
          rfl
        · rcases ih h with h | ⟨r, hr, hcr⟩
          · left
            exact h
          · right
            exact ⟨r, List.mem_cons_of_mem _ hr, hcr⟩

/-- The tag regex matches a string ending in a hyphen and six
lower-case hex digits, capturing the part before the hyphen and the
digits. -/
theorem splitTag_append (A t : List Char) (h6 : t.length = 6)
    (hhex : t.all isHexLower = true) : splitTag (A ++ '-' :: t) = some (A, t) := by
  unfold splitTag
  have hlen : (A ++ '-' :: t).length = A.length + 7 := by
    simp [List.length_append, h6]
  rw [hlen]
  rw [if_pos (Nat.le_add_left 7 A.length)]
  rw [Nat.add_sub_cancel]
  rw [List.drop_left, List.take_left]
  simp [hhex]

/-- A suffix headed by a character failing the predicate survives
`dropWhile`. -/
theorem suffix_dropWhile (P : Char → Bool) (a : List Char) (c : Char) (t : List Char)
    (h : P c = false) : (c :: t) <:+ (a ++ c :: t).dropWhile P := by
  induction a with
  | nil =>
    simp [List.dropWhile_cons, h]
  | cons d ds ih =>
    by_cases hd : P d = true
    · simpa [List.dropWhile_cons, hd] using ih
    · rw [List.cons_append, List.dropWhile_cons, if_neg (by simp [hd])]
      exact (List.suffix_append ds (c :: t)).trans (List.suffix_cons d _)

/-- Right-stripping hyphens is the identity on a list ending in a
nonempty all-hex suffix. -/
theorem rstripH_of_hex_suffix (t M : List Char) (ht : t ≠ [])
    (hhex : t.all isHexLower = true) (h : t <:+ M) : rstripH M = M := by
  obtain ⟨u, rfl⟩ := h
  unfold rstripH
  rw [List.reverse_append]
  cases hrev : t.reverse with
  | nil => exact absurd (List.reverse_eq_nil_iff.mp hrev) ht
  | cons x xs =>
    have hxmem : x ∈ t := List.mem_reverse.mp (hrev ▸ List.mem_cons_self x xs)
    have hxd : ¬ (x = '-') := hex_not_dash (List.all_eq_true.mp hhex x hxmem)
    rw [List.cons_append, List.dropWhile_cons, if_neg (by simp [hxd])]
    have hform : x :: (xs ++ u.reverse) = (u ++ t).reverse := by
      rw [List.reverse_append, hrev]
      rfl
    rw [hform, List.reverse_reverse]

/-- Every character of a sanitized list is in the kept class. -/
theorem map_sanitize_all_ok (xs : List Char) :
    (xs.map sanitizeChar).all okChar = true := by
  apply List.all_eq_true.mpr
  intro c hc
  obtain ⟨d, _, rfl⟩ := List.mem_map.mp hc
  exact okChar_sanitizeChar d

/-- The compressed-and-joined interior keeps only hyphens and
characters of the original part. -/
theorem joined_all_ok {pre : List Char} (h : pre.all okChar = true) :
    (joinH (((splitH pre).filter (fun p => !p.isEmpty)).map
      (fun p => p.take 3))).all okChar = true := by
  apply List.all_eq_true.mpr
  intro c hc
  rcases joinH_mem _ c hc with rfl | ⟨p, hp, hcp⟩
  · decide
  · obtain ⟨q, hq, rfl⟩ := List.mem_map.mp hp
    have hq2 : q ∈ splitH pre := List.mem_of_mem_filter hq
    exact List.all_eq_true.mp h c (splitH_mem hq2 (List.take_subset _ _ hcp))

/-- After compression of an over-long interior, at most 11 characters
remain. -/
theorem compressPre_length_le {pre : List Char} (h : 11 < pre.length) :
    (compressPre pre).length ≤ 11 := by
  unfold compressPre
  rw [if_pos h]
  dsimp only
  split
  · calc (rstripH ((joinH (((splitH pre).filter (fun p => !p.isEmpty)).map
          (fun p => p.take 3))).take 11)).length
        ≤ ((joinH (((splitH pre).filter (fun p => !p.isEmpty)).map
          (fun p => p.take 3))).take 11).length := length_rstripH_le _
      _ ≤ 11 := by
          rw [List.length_take]
          exact Nat.min_le_left _ _
  · omega

/-- Compression keeps only characters of the kept class when fed kept
characters. -/
theorem compressPre_all_ok {pre : List Char} (h : pre.all okChar = true) :
    (compressPre pre).all okChar = true := by
  unfold compressPre
  split
  · dsimp only
    split
    · apply List.all_eq_true.mpr
      intro c hc
      have hc2 := List.take_subset _ _ (mem_rstripH hc)
      exact List.all_eq_true.mp (joined_all_ok h) c hc2
    · exact joined_all_ok h
  · exact h

/-- C9 — for every agent name longer than 18 characters that ends in a
hyphen followed by a 6-character lower-case-hex disambiguation tag, the
sanitized session identifier is at most 18 characters long, contains
only characters of the class `[a-zA-Z0-9-]`, and still ends in that
6-character tag. -/
theorem showdownUsername_cap_charset_tag :
    ∀ (a t : List Char),
      18 < (a ++ '-' :: t).length →
      t.length = 6 →
      t.all isHexLower = true →
      (showdownUsernameChars (a ++ '-' :: t)).length ≤ 18 ∧
        (showdownUsernameChars (a ++ '-' :: t)).all okChar = true ∧
        t <:+ showdownUsernameChars (a ++ '-' :: t) := by
  intro a t hlen h6 hhex
  have htne : t ≠ [] := by
    intro h
    rw [h] at h6
    simp at h6
  have hfix : t.map sanitizeChar = t := by
    have hfx : ∀ c ∈ t, sanitizeChar c = c := by
      intro c hc
      unfold sanitizeChar
      rw [if_pos (okChar_of_hex (List.all_eq_true.mp hhex c hc))]
    calc t.map sanitizeChar = t.map id := List.map_congr_left hfx
      _ = t := List.map_id t
  have hsafe : (a ++ '-' :: t).map sanitizeChar = a.map sanitizeChar ++ '-' :: t := by
    rw [List.map_append, List.map_cons, hfix]
    rw [show sanitizeChar '-' = '-' by decide]
  have hlenA : 11 < (a.map sanitizeChar).length := by
    rw [List.length_append, List.length_cons, h6] at hlen
    rw [List.length_map]
    omega
  have hTot : ¬ ((a.map sanitizeChar ++ '-' :: t).length ≤ 18) := by
    rw [List.length_append, List.length_cons, h6]
    omega
  have hmain : showdownUsernameChars (a ++ '-' :: t) =
      stripH (compressPre (a.map sanitizeChar) ++ '-' :: t) := by
    unfold showdownUsernameChars
    rw [hsafe, if_neg hTot, splitTag_append _ t h6 hhex]
  rw [hmain]
  have hBlen : (compressPre (a.map sanitizeChar)).length ≤ 11 := compressPre_length_le hlenA
  have hBok : (compressPre (a.map sanitizeChar)).all okChar = true :=
    compressPre_all_ok (map_sanitize_all_ok a)
  refine ⟨?_, ?_, ?_⟩
  · have h1 := length_stripH_le (compressPre (a.map sanitizeChar) ++ '-' :: t)
    rw [List.length_append, List.length_cons, h6] at h1
    omega
  · apply List.all_eq_true.mpr
    intro c hc
    rcases List.mem_append.mp (mem_stripH hc) with h | h
    · exact List.all_eq_true.mp hBok c h
    · rcases List.mem_cons.mp h with rfl | h
      · decide
      · exact okChar_of_hex (List.all_eq_true.mp hhex c h)
  · cases t with
    | nil => exact absurd rfl htne
    | cons c0 t2 =>
      have hc0 : isHexLower c0 = true :=
        List.all_eq_true.mp hhex c0 (List.mem_cons_self _ _)
      have hstep1 : (c0 :: t2) <:+
          lstripH (compressPre (a.map sanitizeChar) ++ '-' :: c0 :: t2) := by
        unfold lstripH
        rw [show compressPre (a.map sanitizeChar) ++ '-' :: c0 :: t2 =
            (compressPre (a.map sanitizeChar) ++ ['-']) ++ c0 :: t2 by simp]
        exact suffix_dropWhile _ _ _ _ (by simp [hex_not_dash hc0])
      have hstep2 := rstripH_of_hex_suffix (c0 :: t2) _ htne hhex hstep1
      unfold stripH
      rw [hstep2]
      exact hstep1

/-- C9 witness: the over-long agent name `mistral-large-latest-abc123`
sanitizes to at most 18 kept characters still ending in `abc123`. -/
theorem showdownUsername_cap_charset_tag_witness :
    (showdownUsernameChars ("mistral-large-latest".data ++ '-' :: "abc123".data)).length ≤ 18 ∧
      (showdownUsernameChars
        ("mistral-large-latest".data ++ '-' :: "abc123".data)).all okChar = true ∧
      "abc123".data <:+
        showdownUsernameChars ("mistral-large-latest".data ++ '-' :: "abc123".data) :=
  showdownUsername_cap_charset_tag "mistral-large-latest".data "abc123".data
    (by decide) (by decide) (by decide)

end AlphaStral
